import Mathlib

/-!
Verification development for the pact stub server loader and serving engine
(`src/main.rs` of the pact-stub-server crate).

The loader side (`PactError`, `pact_source`, `walkdir`, `load_pacts`,
`handle_command_args`, the clap validators and `setup_logger`) is embedded
directly from `src/main.rs`.  External effects (the file system, HTTP fetches,
the pact broker client) are captured by a `World` structure of functions, and
the external `regex` crate compiler is a parameter `regexNew : String → Option R`
returning `none` exactly when `Regex::new` would return an error.

The serving engine (`ServerHandler::handle` of `mod server`) is not part of the
sources available here; it is modelled from the specification where needed and
marked as such in the corresponding doc comments.
-/

/-- Authentication for fetching pacts, from `pact_models::http_utils::HttpAuth`:
either user (with optional password) or a bearer token. -/
inductive HttpAuth where
  | User (user : String) (password : Option String)
  | Token (token : String)
deriving DecidableEq, Repr

/-- Source for loading pacts (`enum PactSource` in `src/main.rs`). -/
inductive PactSource where
  | File (file : String)
  | Dir (dir : String)
  | URL (url : String) (auth : Option HttpAuth)
  | Broker (url : String) (auth : Option HttpAuth)
deriving DecidableEq, Repr

/-- An HTTP request as recorded in a pact interaction (method, path, query,
headers, optional body).  Bodies are modelled as strings. -/
structure Request where
  method : String
  path : String
  query : List (String × String)
  headers : List (String × String)
  body : Option String
deriving DecidableEq, Repr

/-- An HTTP response as recorded in a pact interaction. -/
structure Response where
  status : Nat
  headers : List (String × String)
  body : Option String
deriving DecidableEq, Repr

/-- One recorded request/response exchange of a pact, optionally scoped to a
provider state. -/
structure Interaction where
  request : Request
  response : Response
  provider_state : Option String
deriving DecidableEq, Repr

/-- A pact document, reduced to the part the stub server consumes: its ordered
list of interactions (`pact.interactions()`). -/
structure Pact where
  interactions : List Interaction
deriving DecidableEq, Repr

/-- Error type of the loader (`struct PactError` in `src/main.rs`): a message
plus the optional path of the pact file it came from. -/
structure PactError where
  message : String
  path : Option String
deriving DecidableEq, Repr

/-- `PactError::with_path`: attach a file path to an error.  Paths are modelled
as strings (always valid UTF-8), so `path.to_str()` always yields `Some`. -/
def PactError.with_path (e : PactError) (p : String) : PactError :=
  { message := e.message, path := some p }

/-- The `Display` impl of `PactError`: with a path the message is followed by
a separator and the path; without a path the message stands alone. -/
def PactError.display (e : PactError) : String :=
  match e.path with
  | some p => e.message ++ " - " ++ p
  | none => e.message

/-- The `From<std::io::Error> for PactError` conversion: wraps the io error
text in a fixed prefix, with no path. -/
def ioPactError (err : String) : PactError :=
  { message := "Failed to load pact file: " ++ err, path := none }

/-- A file-system tree as seen by `walkdir`.  A `file` node carries its path,
its extension (`none` when `path.extension()` is `None`) and the outcome of
`read_pact` on it (the io-error text on failure).  A `dirOk` node lists its
entries in directory-iteration order; a `dirErr` node is a directory on which
`fs::read_dir` fails with the given io-error text. -/
inductive FsTree where
  | file (path : String) (ext : Option String) (content : Except String Pact)
  | dirOk (path : String) (entries : List FsTree)
  | dirErr (path : String) (err : String)

/-- The entries of a tree node: nonempty only for a readable directory. -/
def FsTree.entries : FsTree → List FsTree
  | .dirOk _ es => es
  | _ => []

/-- `read_pact(&path).map_err(|err| PactError::from(err).with_path(path))`
of the `walkdir` loop body. -/
def readPactWithPath (p : String) (content : Except String Pact) :
    Except PactError Pact :=
  match content with
  | .ok pact => .ok pact
  | .error err => .error ((ioPactError err).with_path p)

mutual

/-- `fn walkdir` of `src/main.rs`: scans a directory, recursing into
subdirectories and reading every file whose extension equals `ext`.  The
result of the recursive call on a subdirectory is discarded, exactly as in the
source (`walkdir(&path, ext)?;` keeps only the error propagation).  Calling
it on a plain file models `fs::read_dir` failing on a non-directory. -/
def walkdir (t : FsTree) (ext : String) :
    Except PactError (List (Except PactError Pact)) :=
  match t with
  | .file _ _ _ => .error (ioPactError "Not a directory (os error 20)")
  | .dirErr _ err => .error (ioPactError err)
  | .dirOk _ entries => walkEntries entries ext

/-- The `for entry in fs::read_dir(dir)?` loop of `walkdir`, over the entries
of one directory. -/
def walkEntries (es : List FsTree) (ext : String) :
    Except PactError (List (Except PactError Pact)) :=
  match es with
  | [] => .ok []
  | .file p (some fx) c :: rest =>
    if fx == ext then
      match walkEntries rest ext with
      | .ok l => .ok (readPactWithPath p c :: l)
      | .error e => .error e
    else walkEntries rest ext
  | .file _ none _ :: rest => walkEntries rest ext
  | t :: rest =>
    match walkdir t ext with
    | .ok _ => walkEntries rest ext
    | .error e => .error e

end

/-- The external world the loader runs against: `read_pact` on a file path,
the file-system tree rooted at a directory path, `pact_from_url`, and the
broker interaction of the `PactSource::Broker` arm of `load_pacts`. -/
structure World where
  readFile : String → Except String Pact
  dirOf : String → FsTree
  fetchUrl : String → Option HttpAuth → Bool → Except PactError Pact
  broker : String → Option HttpAuth → List (Except PactError Pact)

/-- One arm of the `match &s` in `load_pacts`: the list of per-pact results a
single source contributes. -/
def load_source (w : World) (insecure_tls : Bool) (ext : Option String) :
    PactSource → List (Except PactError Pact)
  | .File file => [(w.readFile file).mapError ioPactError]
  | .Dir dir =>
    match walkdir (w.dirOf dir) (ext.getD "json") with
    | .ok pacts => pacts
    | .error err =>
      [.error { message := "Could not load pacts from directory \x27" ++ dir ++
                  "\x27 - " ++ err.display, path := none }]
  | .URL url auth => [w.fetchUrl url auth insecure_tls]
  | .Broker url auth => w.broker url auth

/-- `fn load_pacts` of `src/main.rs`: each source is resolved in order and the
per-source result lists are flattened, preserving order (the futures stream is
consumed sequentially). -/
def load_pacts (w : World) (sources : List PactSource) (insecure_tls : Bool)
    (ext : Option String) : List (Except PactError Pact) :=
  (sources.map (load_source w insecure_tls ext)).flatten

/-- Splits a character list on a separator character, mirroring Rust's
`str::split`: the result is never empty, and consecutive separators yield
empty fields. -/
def splitOnChar (c : Char) : List Char → List (List Char)
  | [] => [[]]
  | x :: xs =>
    let r := splitOnChar c xs
    if x == c then [] :: r
    else
      match r with
      | [] => [[x]]
      | y :: ys => (x :: y) :: ys

/-- Numeric value of a digit string, most significant digit first. -/
def digitsValue (l : List Char) : Nat :=
  l.foldl (fun acc c => acc * 10 + (c.toNat - 48)) 0

/-- Rust's `str::parse::<u16>()`: an optional leading plus sign, then one or
more ASCII digits, with the value required to fit in 16 bits; `none` models
the `Err` outcome. -/
def parse_u16 (s : String) : Option Nat :=
  let cs :=
    match s.toList with
    | c :: rest => if c == '+' then rest else c :: rest
    | [] => []
  if cs.isEmpty then none
  else if cs.all Char.isDigit then
    if digitsValue cs ≤ 65535 then some (digitsValue cs) else none
  else none

/-- `fn integer_value` of `src/main.rs`: the clap validator for `--port`,
accepting exactly the strings that parse as `u16`. -/
def integer_value (v : String) : Except String Unit :=
  match parse_u16 v with
  | some _ => .ok ()
  | none =>
    .error ("\x27" ++ v ++ "\x27 is not a valid port value: invalid digit found in string")

/-- `fn regex_value` of `src/main.rs`: the clap validator for
`--provider-state`, accepting exactly the strings the external regex compiler
`regexNew` (modelling `Regex::new`) accepts. -/
def regex_value {R : Type} (regexNew : String → Option R) (v : String) :
    Except String Unit :=
  match regexNew v with
  | some _ => .ok ()
  | none => .error ("\x27" ++ v ++ "\x27 is not a valid regular expression")

/-- The log level filter of the `log` crate. -/
inductive LevelFilter where
  | off
  | error
  | warn
  | info
  | debug
  | trace
deriving DecidableEq, Repr

/-- Lowercases one ASCII code point. -/
def asciiLowerCode (n : Nat) : Nat :=
  if 65 ≤ n ∧ n ≤ 90 then n + 32 else n

/-- ASCII-case-insensitive string equality, as used by the `log` crate when
parsing a level filter name. -/
def eqIgnoreAsciiCase (s t : String) : Bool :=
  s.toList.map (fun c => asciiLowerCode c.toNat) ==
    t.toList.map (fun c => asciiLowerCode c.toNat)

/-- `LevelFilter::from_str` of the `log` crate: a case-insensitive match
against the level filter names; `none` models the `Err` outcome. -/
def levelFilterFromStr (s : String) : Option LevelFilter :=
  if eqIgnoreAsciiCase s "OFF" then some .off
  else if eqIgnoreAsciiCase s "ERROR" then some .error
  else if eqIgnoreAsciiCase s "WARN" then some .warn
  else if eqIgnoreAsciiCase s "INFO" then some .info
  else if eqIgnoreAsciiCase s "DEBUG" then some .debug
  else if eqIgnoreAsciiCase s "TRACE" then some .trace
  else none

/-- The level computation of `fn setup_logger` in `src/main.rs`: the literal
string for no logging maps to `LevelFilter::Off`, anything else goes through
`LevelFilter::from_str(level).unwrap()`; `none` models that unwrap panicking. -/
def setup_logger_level (level : String) : Option LevelFilter :=
  if level == "none" then some .off
  else levelFilterFromStr level

/-- The clap `ArgMatches` relevant to `src/main.rs`, after successful parsing:
repeatable flags are lists in command-line order, optional single-value flags
are options, and presence flags are booleans. -/
structure ArgMatches where
  loglevel : Option String
  files : List String
  dirs : List String
  ext : Option String
  urls : List String
  broker_url : Option String
  user : Option String
  token : Option String
  port : Option String
  cors : Bool
  cors_referer : Bool
  insecure_tls : Bool
  provider_state : Option String
  provider_state_header_name : Option String
  empty_provider_state : Bool
deriving DecidableEq, Repr

/-- The auth closure duplicated in `fn pact_source` for the URL and broker
arms: a `--user` value is split on the first colon into user and optional
password, otherwise a `--token` value becomes a bearer token. -/
def user_or_token_auth (m : ArgMatches) : Option HttpAuth :=
  match m.user with
  | some u =>
    match splitOnChar ':' u.toList with
    | [] => none
    | p :: rest => some (HttpAuth.User (String.mk p) (rest.head?.map String.mk))
  | none => m.token.map HttpAuth.Token

/-- `fn pact_source` of `src/main.rs`: accumulates sources into a vector,
extending with the file values, then the directory values, then the URL
values (each with the user-or-token auth), then pushing the broker source when
present. -/
def pact_source (m : ArgMatches) : List PactSource :=
  let sources : List PactSource := []
  let sources := sources ++ m.files.map PactSource.File
  let sources := sources ++ m.dirs.map PactSource.Dir
  let sources := sources ++ m.urls.map (fun v => PactSource.URL v (user_or_token_auth m))
  match m.broker_url with
  | some url => sources ++ [PactSource.Broker url (user_or_token_auth m)]
  | none => sources

/-- The stub server handler (`ServerHandler::new` in `mod server`), holding
the interaction store and the five recognized engine options.  `R` is the type
of compiled regular expressions of the external regex crate. -/
structure ServerHandler (R : Type) where
  sources : List Interaction
  auto_cors : Bool
  cors_referer : Bool
  provider_state : Option R
  provider_state_header_name : Option String
  empty_provider_state : Bool
deriving DecidableEq, Repr

/-- Outcome of `handle_command_args` after argument parsing succeeded:
either the server handler is constructed and the server started on a port,
or start-up aborts with an exit code after logging the load errors, or one of
the unwraps in the success path panics. -/
inductive CommandOutcome (R : Type) where
  | started (handler : ServerHandler R) (port : Nat)
  | aborted (code : Int) (logged : List PactError)
  | panicked (msg : String)
deriving DecidableEq, Repr

/-- `Result::is_err`. -/
def Except.isErr : Except ε α → Bool
  | .error _ => true
  | .ok _ => false

/-- The errors of a load result list, in order: the list the error branch of
`handle_command_args` iterates over and logs. -/
def errorsOf (l : List (Except PactError Pact)) : List PactError :=
  l.filterMap fun p =>
    match p with
    | .error e => some e
    | .ok _ => none

/-- `matches.value_of("provider-state").map(|filter| Regex::new(filter).unwrap())`:
`some` of the compiled filter option on success, `none` when the unwrap would
panic. -/
def compileProviderState {R : Type} (regexNew : String → Option R) :
    Option String → Option (Option R)
  | none => some none
  | some filter => (regexNew filter).map some

/-- The `Ok(matches)` branch of `fn handle_command_args` in `src/main.rs`:
load all pacts from the sources; if any result is an error, log every error
and return exit code 3; otherwise unwrap the validated port and provider-state
values, flatten the interactions of the loaded pacts in load order, construct
the `ServerHandler` once and start the server. -/
def handle_command_args {R : Type} (regexNew : String → Option R) (w : World)
    (m : ArgMatches) : CommandOutcome R :=
  let sources := pact_source m
  let pacts := load_pacts w sources m.insecure_tls m.ext
  if pacts.any Except.isErr then
    .aborted 3 (errorsOf pacts)
  else
    match parse_u16 (m.port.getD "0") with
    | none => .panicked "called Option.unwrap on a None value"
    | some port =>
      match compileProviderState regexNew m.provider_state with
      | none => .panicked "called Result.unwrap on an Err value"
      | some provider_state =>
        let interactions :=
          (pacts.filterMap Except.toOption).flatMap Pact.interactions
        .started
          { sources := interactions
            auto_cors := m.cors
            cors_referer := m.cors_referer
            provider_state := provider_state
            provider_state_header_name := m.provider_state_header_name
            empty_provider_state := m.empty_provider_state } port

/-- Looks up the first header with the given name in a request. -/
def Request.headerValue (r : Request) (name : String) : Option String :=
  (r.headers.find? fun h => h.fst == name).map Prod.snd

/-- Modelled from the spec: the Provider-State Filter of the serving engine
(section 4.2), whose implementation lives in the `server` module that is not
among the available sources.  `stateMatches` is the external unanchored regex
match of the compiled pattern against a state text.  With no configured
pattern every interaction applies; with a pattern, an interaction with state
text applies iff the pattern matches it, and a state-less interaction applies
iff the empty-provider-state flag is set. -/
def providerStateApplies {R : Type} (stateMatches : R → String → Bool)
    (pattern : Option R) (emptyOk : Bool) (i : Interaction) : Bool :=
  match pattern with
  | none => true
  | some r =>
    match i.provider_state with
    | some st => stateMatches r st
    | none => emptyOk

/-- Modelled from the spec: the Disambiguator of the serving engine (section
4.3), not among the available sources.  An empty candidate set signals no
match; a singleton is selected; among several candidates, a disambiguation
header value equal to the provider state of exactly one candidate selects
that one, otherwise the earliest-loaded candidate wins. -/
def disambiguate (headerName : Option String) (req : Request) :
    List Interaction → Option Interaction
  | [] => none
  | [i] => some i
  | i :: j :: rest =>
    match headerName.bind req.headerValue with
    | some v =>
      match (i :: j :: rest).filter (fun k => k.provider_state == some v) with
      | [k] => some k
      | _ => some i
    | none => some i

/-- An outbound HTTP response of the stub server: the body is always present
(possibly empty). -/
structure HttpResponse where
  status : Nat
  headers : List (String × String)
  body : String
deriving DecidableEq, Repr

/-- Modelled from the spec: the allow-origin value of the CORS policy (section
4.4) — the wildcard, or the inbound Referer header value when the referer
option is set. -/
def corsOrigin (cors_referer : Bool) (req : Request) : String :=
  if cors_referer then (req.headerValue "Referer").getD "*" else "*"

/-- Modelled from the spec: CORS header injection into a matched response
(section 4.4) — with auto-CORS on, the allow-origin header is added only when
the recorded response does not already define it. -/
def injectCors (auto_cors cors_referer : Bool) (req : Request)
    (hs : List (String × String)) : List (String × String) :=
  if auto_cors && hs.all (fun h => h.fst != "Access-Control-Allow-Origin") then
    hs ++ [("Access-Control-Allow-Origin", corsOrigin cors_referer req)]
  else hs

/-- Modelled from the spec: the Response Builder on a matched interaction
(section 4.4) — the recorded status, headers and body verbatim, with the CORS
injection applied to the headers. -/
def matchedResponse (auto_cors cors_referer : Bool) (req : Request)
    (i : Interaction) : HttpResponse :=
  { status := i.response.status
    headers := injectCors auto_cors cors_referer req i.response.headers
    body := i.response.body.getD "" }

/-- Modelled from the spec: the synthesized preflight response (section 4.4) —
status 200 with the allow-origin rule and permissive methods and headers. -/
def corsPreflightResponse (cors_referer : Bool) (req : Request) : HttpResponse :=
  { status := 200
    headers := [("Access-Control-Allow-Origin", corsOrigin cors_referer req),
                ("Access-Control-Allow-Methods", "GET, HEAD, POST, PUT, DELETE, PATCH"),
                ("Access-Control-Allow-Headers", "*")]
    body := "" }

/-- Modelled from the spec: the diagnostic fallback response on no match
(sections 4.5 and 7) — status 500 with a body summarizing the unmatched
request. -/
def fallbackResponse (req : Request) : HttpResponse :=
  { status := 500
    headers := [("Content-Type", "application/json")]
    body := "No matching interaction found for " ++ req.method ++ " " ++ req.path }

/-- Modelled from the spec: the `handle` entry point of the Request Handler
(section 4.5), whose implementation lives in the `server` module that is not
among the available sources.  `stateMatches` is the external regex matcher and
`reqMatches` the external request-comparison predicate of the contract
specification.  Candidates are the stored interactions passing both the
Provider-State Filter and the request predicate; the Disambiguator selects
one; a selection is rendered by the Response Builder; with no selection, an
auto-CORS preflight request gets the synthesized CORS response and anything
else the diagnostic fallback. -/
def ServerHandler.handle {R : Type} (stateMatches : R → String → Bool)
    (reqMatches : Request → Request → Bool) (h : ServerHandler R)
    (req : Request) : HttpResponse :=
  let candidates := h.sources.filter fun i =>
    providerStateApplies stateMatches h.provider_state h.empty_provider_state i &&
      reqMatches req i.request
  match disambiguate h.provider_state_header_name req candidates with
  | some i => matchedResponse h.auto_cors h.cors_referer req i
  | none =>
    if h.auto_cors && req.method == "OPTIONS" then
      corsPreflightResponse h.cors_referer req
    else fallbackResponse req

/-- A sample interaction used by concrete witnesses. -/
def sampleInteraction : Interaction :=
  { request := { method := "GET", path := "/hello", query := [], headers := [], body := none }
    response := { status := 200, headers := [("Content-Type", "application/json")],
                  body := some "\x7b\x7d" }
    provider_state := some "greeting exists" }

/-- A sample pact with one interaction, used by concrete witnesses. -/
def samplePact : Pact :=
  { interactions := [sampleInteraction] }

/-- Argument matches with nothing set, the base for concrete witnesses. -/
def emptyMatches : ArgMatches :=
  { loglevel := none, files := [], dirs := [], ext := none, urls := [],
    broker_url := none, user := none, token := none, port := none,
    cors := false, cors_referer := false, insecure_tls := false,
    provider_state := none, provider_state_header_name := none,
    empty_provider_state := false }

/-- A world in which every external load fails, used by concrete witnesses. -/
def errWorld : World :=
  { readFile := fun _ => .error "No such file or directory (os error 2)",
    dirOf := fun p => .dirErr p "Permission denied (os error 13)",
    fetchUrl := fun _ _ _ => .error { message := "Request failed: 404", path := none },
    broker := fun _ _ => [] }

/-- Matches naming one missing pact file, used by concrete witnesses. -/
def errMatches : ArgMatches :=
  { emptyMatches with files := ["missing.json"] }

/-- Matches naming one unreadable pact directory, used by concrete witnesses. -/
def dirMatches : ArgMatches :=
  { emptyMatches with dirs := ["pactdir"] }

/-- A world whose only pact file sits in a nested subdirectory of the pact
directory, used by concrete witnesses. -/
def nestedWorld : World :=
  { readFile := fun _ => .error "unused",
    dirOf := fun _ =>
      FsTree.dirOk "pacts"
        [FsTree.dirOk "pacts/sub"
          [FsTree.file "pacts/sub/p.json" (some "json") (.ok samplePact)]],
    fetchUrl := fun _ _ _ => .error { message := "unused", path := none },
    broker := fun _ _ => [] }

/-- Matches naming one pact directory, used by concrete witnesses. -/
def nestedMatches : ArgMatches :=
  { emptyMatches with dirs := ["pacts"] }

/-- A world in which reading a pact file succeeds, used by concrete
witnesses. -/
def okWorld : World :=
  { readFile := fun _ => .ok samplePact,
    dirOf := fun p => .dirErr p "unused",
    fetchUrl := fun _ _ _ => .error { message := "unused", path := none },
    broker := fun _ _ => [] }

/-- Matches naming one pact file together with a validated port and
provider-state filter, used by concrete witnesses. -/
def okMatches : ArgMatches :=
  { emptyMatches with
    files := ["a.json"], port := some "8080", provider_state := some "greeting.*",
    provider_state_header_name := some "X-Provider-State", cors := true }

/-- A directory tree with one unparseable top-level pact file, used by
concrete witnesses. -/
def badFileTree : FsTree :=
  .dirOk "pacts" [.file "pacts/bad.json" (some "json") (.error "EOF while parsing a value")]

/-- The load error the unparseable file of `badFileTree` produces. -/
def badFileError : PactError :=
  (ioPactError "EOF while parsing a value").with_path "pacts/bad.json"

/-- A sample handler over the unit regex type, used by concrete witnesses. -/
def sampleHandler : ServerHandler Unit :=
  { sources := [sampleInteraction], auto_cors := false, cors_referer := false,
    provider_state := none, provider_state_header_name := none,
    empty_provider_state := false }

/-- A sample inbound request, used by concrete witnesses. -/
def sampleReq : Request :=
  { method := "GET", path := "/hello", query := [], headers := [], body := none }

theorem mem_load_pacts_of_mem_source (w : World) (ins : Bool) (ext : Option String)
    (sources : List PactSource) (s : PactSource) (hs : s ∈ sources)
    (x : Except PactError Pact) (hx : x ∈ load_source w ins ext s) :
    x ∈ load_pacts w sources ins ext := by
  unfold load_pacts
  rw [List.mem_flatten]
  exact ⟨load_source w ins ext s, List.mem_map_of_mem _ hs, hx⟩

theorem aborted_of_any_err {R : Type} (regexNew : String → Option R) (w : World)
    (m : ArgMatches)
    (h : (load_pacts w (pact_source m) m.insecure_tls m.ext).any Except.isErr = true) :
    handle_command_args regexNew w m =
      CommandOutcome.aborted 3
        (errorsOf (load_pacts w (pact_source m) m.insecure_tls m.ext)) := by
  unfold handle_command_args
  simp [h]

theorem started_of_no_err {R : Type} (regexNew : String → Option R) (w : World)
    (m : ArgMatches)
    (hok : (load_pacts w (pact_source m) m.insecure_tls m.ext).any Except.isErr = false)
    (port : Nat) (hport : parse_u16 (m.port.getD "0") = some port)
    (ps : Option R) (hps : compileProviderState regexNew m.provider_state = some ps) :
    handle_command_args regexNew w m =
      CommandOutcome.started
        { sources := ((load_pacts w (pact_source m) m.insecure_tls
              m.ext).filterMap Except.toOption).flatMap Pact.interactions
          auto_cors := m.cors
          cors_referer := m.cors_referer
          provider_state := ps
          provider_state_header_name := m.provider_state_header_name
          empty_provider_state := m.empty_provider_state } port := by
  unfold handle_command_args
  simp [hok, hport, hps]

theorem parse_port_of_validated (o : Option String)
    (h : ∀ v, o = some v → integer_value v = .ok ()) :
    ∃ port, parse_u16 (o.getD "0") = some port := by
  cases o with
  | none => exact ⟨0, rfl⟩
  | some v =>
    have hv := h v rfl
    unfold integer_value at hv
    cases hp : parse_u16 v with
    | none => rw [hp] at hv; exact absurd hv (by simp)
    | some port => exact ⟨port, by simpa using hp⟩

theorem compile_state_of_validated {R : Type} (regexNew : String → Option R)
    (o : Option String)
    (h : ∀ v, o = some v → regex_value regexNew v = .ok ()) :
    ∃ ps, compileProviderState regexNew o = some ps := by
  cases o with
  | none => exact ⟨none, rfl⟩
  | some v =>
    have hv := h v rfl
    unfold regex_value at hv
    cases hr : regexNew v with
    | none => rw [hr] at hv; exact absurd hv (by simp)
    | some r => exact ⟨some r, by simp [compileProviderState, hr]⟩

theorem compile_state_bind {R : Type} (regexNew : String → Option R)
    (o : Option String) (ps : Option R)
    (h : compileProviderState regexNew o = some ps) :
    ps = o.bind regexNew := by
  cases o with
  | none => simpa [compileProviderState] using h.symm
  | some v =>
    simp only [compileProviderState] at h
    cases hr : regexNew v with
    | none => rw [hr] at h; simp at h
    | some r => rw [hr] at h; simp_all

theorem walkEntries_error_path (es : List FsTree) (ext : String)
    (l : List (Except PactError Pact)) (e : PactError)
    (hw : walkEntries es ext = .ok l) (he : Except.error e ∈ l) :
    ∃ p fx c, FsTree.file p (some fx) c ∈ es ∧ fx = ext ∧
      readPactWithPath p c = .error e := by
  induction es generalizing l with
  | nil =>
    simp only [walkEntries] at hw
    cases hw
    simp at he
  | cons t rest ih =>
    cases t with
    | file p fx c =>
      cases fx with
      | some fx =>
        simp only [walkEntries] at hw
        split at hw
        next hfx =>
          split at hw
          next l2 hrest =>
            cases hw
            rcases List.mem_cons.mp he with he1 | he2
            · exact ⟨p, fx, c, List.mem_cons_self _ _, eq_of_beq hfx, he1.symm⟩
            · obtain ⟨p2, fx2, c2, hm, hfx2, hr⟩ := ih l2 hrest he2
              exact ⟨p2, fx2, c2, List.mem_cons_of_mem _ hm, hfx2, hr⟩
          next e2 herr => cases hw
        next hfx =>
          obtain ⟨p2, fx2, c2, hm, hfx2, hr⟩ := ih l hw he
          exact ⟨p2, fx2, c2, List.mem_cons_of_mem _ hm, hfx2, hr⟩
      | none =>
        simp only [walkEntries] at hw
        obtain ⟨p2, fx2, c2, hm, hfx2, hr⟩ := ih l hw he
        exact ⟨p2, fx2, c2, List.mem_cons_of_mem _ hm, hfx2, hr⟩
    | dirOk p2 es2 =>
      simp only [walkEntries] at hw
      split at hw
      next =>
        obtain ⟨p3, fx3, c3, hm, hfx3, hr⟩ := ih l hw he
        exact ⟨p3, fx3, c3, List.mem_cons_of_mem _ hm, hfx3, hr⟩
      next => cases hw
    | dirErr p2 err2 =>
      simp only [walkEntries] at hw
      split at hw
      next =>
        obtain ⟨p3, fx3, c3, hm, hfx3, hr⟩ := ih l hw he
        exact ⟨p3, fx3, c3, List.mem_cons_of_mem _ hm, hfx3, hr⟩
      next => cases hw

/-- C1: for every collection of pact sources, if loading any source yields an
error then `handle_command_args` logs every load error in order and returns
exit code 3 — the outcome carries exactly the errors of the load result — and
the `ServerHandler` is never constructed and the server never started on an
errored set. -/
theorem load_errors_abort_startup {R : Type} (regexNew : String → Option R)
    (w : World) (m : ArgMatches)
    (h : (load_pacts w (pact_source m) m.insecure_tls m.ext).any Except.isErr = true) :
    handle_command_args regexNew w m =
      CommandOutcome.aborted 3
        (errorsOf (load_pacts w (pact_source m) m.insecure_tls m.ext)) :=
  aborted_of_any_err regexNew w m h

/-- Witness for the start-up abort theorem at a concrete failing file source. -/
theorem load_errors_abort_startup_witness :
    handle_command_args (fun _ => (none : Option Unit)) errWorld errMatches =
      CommandOutcome.aborted 3
        (errorsOf (load_pacts errWorld (pact_source errMatches)
          errMatches.insecure_tls errMatches.ext)) :=
  load_errors_abort_startup (fun _ => (none : Option Unit)) errWorld errMatches rfl

/-- C2: the claim fails on the code — `walkdir` discards the entire result of
its recursive call on a subdirectory, so a pact file with the configured
extension inside a nested subdirectory that is unparseable produces no
reported load error at all: on this directory tree the scan returns an empty
result list instead of the nested file's error. -/
theorem walkdir_discards_nested_file_errors :
    walkdir (FsTree.dirOk "pacts"
      [FsTree.dirOk "pacts/sub"
        [FsTree.file "pacts/sub/bad.json" (some "json")
          (.error "expected value at line 1 column 1")]]) "json" = .ok [] := rfl

/-- C3 counterexample: with a single directory source whose only pact file
lies in a nested subdirectory, start-up succeeds but the constructed handler's
interaction store is empty — the subdirectory pact's interactions are missing,
refuting the claim as stated. -/
theorem subdir_pact_interactions_missing :
    handle_command_args (fun _ => (none : Option Unit)) nestedWorld nestedMatches =
      CommandOutcome.started
        { sources := [], auto_cors := false, cors_referer := false,
          provider_state := none, provider_state_header_name := none,
          empty_provider_state := false } 0
    ∧ samplePact.interactions ≠ [] :=
  ⟨rfl, by simp [samplePact]⟩

/-- C3 (amended): when every source loads successfully and the port and
provider-state values passed their clap validators, the `ServerHandler` is
constructed exactly once, before any traffic is served, with the concatenation
in load order of the interactions of every successfully loaded pact — where,
`walkdir` discarding its recursive results, pacts found in nested
subdirectories of a directory source are not part of the load result — and
the started outcome carries exactly that store. -/
theorem handler_built_once_from_loaded_pacts {R : Type}
    (regexNew : String → Option R) (w : World) (m : ArgMatches)
    (hok : (load_pacts w (pact_source m) m.insecure_tls m.ext).any Except.isErr = false)
    (hport : ∀ v, m.port = some v → integer_value v = .ok ())
    (hps : ∀ v, m.provider_state = some v → regex_value regexNew v = .ok ()) :
    ∃ handler port, handle_command_args regexNew w m =
        CommandOutcome.started handler port
      ∧ handler.sources =
          ((load_pacts w (pact_source m) m.insecure_tls m.ext).filterMap
            Except.toOption).flatMap Pact.interactions := by
  obtain ⟨port, hp⟩ := parse_port_of_validated m.port hport
  obtain ⟨ps, hc⟩ := compile_state_of_validated regexNew m.provider_state hps
  exact ⟨_, port, started_of_no_err regexNew w m hok port hp ps hc, rfl⟩

/-- Witness for the handler construction theorem at a concrete loadable file
source with validated port and provider-state values. -/
theorem handler_built_once_from_loaded_pacts_witness :
    ∃ handler port,
      handle_command_args (fun s => some s) okWorld okMatches =
        CommandOutcome.started handler port
      ∧ handler.sources =
          ((load_pacts okWorld (pact_source okMatches) okMatches.insecure_tls
            okMatches.ext).filterMap Except.toOption).flatMap Pact.interactions :=
  handler_built_once_from_loaded_pacts (fun s => some s) okWorld okMatches rfl
    (fun v hv => by
      simp only [okMatches, emptyMatches] at hv
      cases hv
      rfl)
    (fun v hv => by
      simp only [okMatches, emptyMatches] at hv
      cases hv
      rfl)

/-- C4: under the same success and validation hypotheses, the engine is
configured with exactly the five recognized options, each derived from its
command-line flag: auto-CORS and CORS-referer from their presence flags, the
provider-state filter as the compiled regex of the given value and absent when
the flag is absent, the provider-state header name as given, and the
empty-provider-state presence flag. -/
theorem engine_options_derived_from_flags {R : Type}
    (regexNew : String → Option R) (w : World) (m : ArgMatches)
    (hok : (load_pacts w (pact_source m) m.insecure_tls m.ext).any Except.isErr = false)
    (hport : ∀ v, m.port = some v → integer_value v = .ok ())
    (hps : ∀ v, m.provider_state = some v → regex_value regexNew v = .ok ()) :
    ∃ handler port, handle_command_args regexNew w m =
        CommandOutcome.started handler port
      ∧ handler.auto_cors = m.cors
      ∧ handler.cors_referer = m.cors_referer
      ∧ handler.provider_state = m.provider_state.bind regexNew
      ∧ handler.provider_state_header_name = m.provider_state_header_name
      ∧ handler.empty_provider_state = m.empty_provider_state := by
  obtain ⟨port, hp⟩ := parse_port_of_validated m.port hport
  obtain ⟨ps, hc⟩ := compile_state_of_validated regexNew m.provider_state hps
  refine ⟨_, port, started_of_no_err regexNew w m hok port hp ps hc,
    rfl, rfl, ?_, rfl, rfl⟩
  exact compile_state_bind regexNew m.provider_state ps hc

/-- Witness for the engine options theorem at a concrete loadable file source
with the CORS flag set and validated port and provider-state values. -/
theorem engine_options_derived_from_flags_witness :
    ∃ handler port,
      handle_command_args (fun s => some s) okWorld okMatches =
        CommandOutcome.started handler port
      ∧ handler.auto_cors = okMatches.cors
      ∧ handler.cors_referer = okMatches.cors_referer
      ∧ handler.provider_state = okMatches.provider_state.bind (fun s => some s)
      ∧ handler.provider_state_header_name = okMatches.provider_state_header_name
      ∧ handler.empty_provider_state = okMatches.empty_provider_state :=
  engine_options_derived_from_flags (fun s => some s) okWorld okMatches rfl
    (fun v hv => by
      simp only [okMatches, emptyMatches] at hv
      cases hv
      rfl)
    (fun v hv => by
      simp only [okMatches, emptyMatches] at hv
      cases hv
      rfl)

/-- C5: for every loaded interaction set, external matchers, configuration and
inbound request, the handle entry point returns exactly one outbound response
— never zero, never more than one; the model is a total function, so it never
throws, and the outbound response type carries a body in every case. -/
theorem handle_returns_exactly_one_response {R : Type}
    (stateMatches : R → String → Bool) (reqMatches : Request → Request → Bool)
    (h : ServerHandler R) (req : Request) :
    ∃! resp : HttpResponse,
      ServerHandler.handle stateMatches reqMatches h req = resp :=
  ⟨ServerHandler.handle stateMatches reqMatches h req, rfl, fun _ hy => hy.symm⟩

/-- C6: for a fixed interaction store, provider-state filter and
disambiguation configuration, two invocations of handle on identical requests
produce identical responses — handle is a pure function of the store, the
configuration and the request, so the result is independent of request
concurrency. -/
theorem handle_deterministic_for_identical_requests {R : Type}
    (stateMatches : R → String → Bool) (reqMatches : Request → Request → Bool)
    (h : ServerHandler R) (req1 req2 : Request) (heq : req1 = req2) :
    ServerHandler.handle stateMatches reqMatches h req1 =
      ServerHandler.handle stateMatches reqMatches h req2 := by
  rw [heq]

/-- Witness for the determinism theorem at a concrete store and request. -/
theorem handle_deterministic_for_identical_requests_witness :
    ServerHandler.handle (fun _ _ => true) (fun _ _ => true) sampleHandler sampleReq =
      ServerHandler.handle (fun _ _ => true) (fun _ _ => true) sampleHandler sampleReq :=
  handle_deterministic_for_identical_requests (fun _ _ => true) (fun _ _ => true)
    sampleHandler sampleReq sampleReq rfl

/-- C7: every load error arising from a pact file found via a directory source
carries that file's path — the error comes from a file entry of the scanned
directory and its path field is set to that file's path — its displayed form
is the message followed by the separator and the path, and an error with no
path displays the message alone. -/
theorem dir_load_error_carries_path_and_display (t : FsTree) (ext : String)
    (l : List (Except PactError Pact)) (e e2 : PactError)
    (hw : walkdir t ext = .ok l) (he : Except.error e ∈ l) (h2 : e2.path = none) :
    (∃ p, e.path = some p ∧
        (∃ fx c, FsTree.file p (some fx) c ∈ t.entries) ∧
        PactError.display e = e.message ++ " - " ++ p)
      ∧ PactError.display e2 = e2.message := by
  constructor
  · cases t with
    | file p fx c => exact absurd hw (by simp [walkdir])
    | dirErr p err => exact absurd hw (by simp [walkdir])
    | dirOk p es =>
      have hw2 : walkEntries es ext = .ok l := by simpa [walkdir] using hw
      obtain ⟨p2, fx2, c2, hm, hfx2, hr⟩ := walkEntries_error_path es ext l e hw2 he
      cases c2 with
      | ok pa => simp [readPactWithPath] at hr
      | error ioe =>
        simp only [readPactWithPath] at hr
        obtain rfl : ((ioPactError ioe).with_path p2) = e := Except.error.inj hr
        exact ⟨p2, rfl, ⟨fx2, .error ioe, by simpa [FsTree.entries] using hm⟩, rfl⟩
  · simp [PactError.display, h2]

/-- Witness for the path-carrying display theorem at a concrete unparseable
top-level pact file, paired with a concrete path-less error. -/
theorem dir_load_error_carries_path_and_display_witness :
    (∃ p, badFileError.path = some p ∧
        (∃ fx c, FsTree.file p (some fx) c ∈ badFileTree.entries) ∧
        PactError.display badFileError = badFileError.message ++ " - " ++ p)
      ∧ PactError.display { message := "boom", path := none } = "boom" :=
  dir_load_error_carries_path_and_display badFileTree "json"
    [.error badFileError] badFileError { message := "boom", path := none }
    rfl (List.mem_singleton.mpr rfl) rfl

/-- C8: a directory source whose directory cannot be read contributes exactly
one error result, whose message names the directory, rather than panicking or
dropping the source; and when such a source is among the parsed sources,
start-up aborts with exit code 3. -/
theorem unreadable_dir_one_error_and_abort {R : Type}
    (regexNew : String → Option R) (w : World) (m : ArgMatches)
    (d : String) (e : PactError)
    (hd : walkdir (w.dirOf d) (m.ext.getD "json") = .error e)
    (hm : PactSource.Dir d ∈ pact_source m) :
    load_source w m.insecure_tls m.ext (PactSource.Dir d) =
      [.error { message := "Could not load pacts from directory \x27" ++ d ++
                  "\x27 - " ++ e.display, path := none }]
    ∧ ∃ logged, handle_command_args regexNew w m =
        CommandOutcome.aborted 3 logged := by
  have hsrc : load_source w m.insecure_tls m.ext (PactSource.Dir d) =
      [.error { message := "Could not load pacts from directory \x27" ++ d ++
                  "\x27 - " ++ e.display, path := none }] := by
    simp only [load_source]
    rw [hd]
  refine ⟨hsrc, errorsOf (load_pacts w (pact_source m) m.insecure_tls m.ext), ?_⟩
  have hmem : (Except.error { message := "Could not load pacts from directory \x27" ++
        d ++ "\x27 - " ++ e.display, path := none } : Except PactError Pact)
      ∈ load_pacts w (pact_source m) m.insecure_tls m.ext :=
    mem_load_pacts_of_mem_source w m.insecure_tls m.ext (pact_source m)
      (PactSource.Dir d) hm _ (by rw [hsrc]; exact List.mem_singleton.mpr rfl)
  have hany : (load_pacts w (pact_source m) m.insecure_tls m.ext).any
      Except.isErr = true := by
    rw [List.any_eq_true]
    exact ⟨_, hmem, rfl⟩
  exact aborted_of_any_err regexNew w m hany

/-- Witness for the unreadable directory theorem at a concrete directory
source on which reading the directory fails. -/
theorem unreadable_dir_one_error_and_abort_witness :
    load_source errWorld dirMatches.insecure_tls dirMatches.ext
        (PactSource.Dir "pactdir") =
      [.error { message := "Could not load pacts from directory \x27pactdir\x27 - " ++
          (ioPactError "Permission denied (os error 13)").display, path := none }]
    ∧ ∃ logged, handle_command_args (fun _ => (none : Option Unit)) errWorld dirMatches =
        CommandOutcome.aborted 3 logged :=
  unreadable_dir_one_error_and_abort (fun _ => (none : Option Unit)) errWorld dirMatches
    "pactdir" (ioPactError "Permission denied (os error 13)") rfl (by decide)

/-- C9: the unwraps performed on validated command-line values never panic:
every string accepted by the port validator parses as a 16-bit integer, every
string accepted by the regex validator compiles, and every permitted log level
string yields a level filter in `setup_logger`. -/
theorem validated_unwraps_never_panic {R : Type} (regexNew : String → Option R)
    (v s level : String)
    (hv : integer_value v = .ok ())
    (hs : regex_value regexNew s = .ok ())
    (hl : level ∈ ["error", "warn", "info", "debug", "trace", "none"]) :
    (parse_u16 v).isSome = true ∧ (regexNew s).isSome = true ∧
      (setup_logger_level level).isSome = true := by
  refine ⟨?_, ?_, ?_⟩
  · cases hp : parse_u16 v with
    | none => simp [integer_value, hp] at hv
    | some n => simp [hp]
  · cases hr : regexNew s with
    | none => simp [regex_value, hr] at hs
    | some r => simp [hr]
  · fin_cases hl <;> rfl

/-- Witness for the validated unwraps theorem at concrete validated values. -/
theorem validated_unwraps_never_panic_witness :
    (parse_u16 "8080").isSome = true ∧ (Option.some "a.*").isSome = true ∧
      (setup_logger_level "debug").isSome = true :=
  validated_unwraps_never_panic Option.some "8080" "a.*" "debug" rfl rfl (by decide)

/-- C10: `pact_source` returns the sources grouped in a fixed order regardless
of how the flags were interleaved on the command line — each flag's values
arrive as that flag's own ordered list — with all file sources first, then all
directory sources, then all URL sources, then the broker source when present,
each group preserving its own command-line order, and with the same
user-or-token auth value attached to every URL source and to the broker
source. -/
theorem pact_source_fixed_grouping (m : ArgMatches) :
    pact_source m =
      m.files.map PactSource.File ++ m.dirs.map PactSource.Dir ++
        m.urls.map (fun v => PactSource.URL v (user_or_token_auth m)) ++
        (match m.broker_url with
          | some url => [PactSource.Broker url (user_or_token_auth m)]
          | none => []) := by
  unfold pact_source
  cases m.broker_url <;> simp
